import Mathlib

/-!
Shallow embedding of the synthetic cohort generator from
`notebooks/shap-complete.ipynb` (NHSE explainability masterclass).

The notebook draws Gaussian vectors from the process-wide numpy
pseudo-random generator.  We model the generator as a stream of
standard-normal draws `stream : ℕ → ℚ` together with a cursor `pos`;
each call `np.random.normal(loc, scale, n)` consumes the next `n`
entries of the stream and returns `loc + scale * z` for each entry `z`
(the usual reparameterisation of a `Normal(loc, scale)` draw).
Machine floats are modelled by exact rationals.  Tables (pandas
DataFrames) are a column-name list plus a list of rows.
-/

namespace Shap

/-! ### Constants of the data-generating process (cell 5 of the notebook) -/

def SYSTOLIC_PRESSURE : ℚ := 105
def SYSTOLIC_PRESSURE_STD : ℚ := 10
def SYSTOLIC_TO_DIASTOLIC_FACTOR : ℚ := 2/3
def SYSTOLIC_TO_DIASTOLIC_FACTOR_STD : ℚ := 1/100

def MEAN_BODY_TEMP : ℚ := 367/10
def MEAN_BODY_TEMP_STD : ℚ := 1/20
def BODY_TEMP_NOISE : ℚ := 0
def BODY_TEMP_NOISE_STD : ℚ := 1/100

def MEAN_RESPIRATION_RATE : ℚ := 14
def MEAN_RESPIRATION_RATE_STD : ℚ := 4/5
def RESPIRATION_RATE_NOISE : ℚ := 0
def RESPIRATION_RATE_NOISE_STD : ℚ := 1/2
def RESPIRATION_RATE_NOISE_INFECTED : ℚ := 3/2
def RESPIRATION_RATE_NOISE_STD_INFECTED : ℚ := 2/5

def RESPIRATION_TO_PULSE_FACTOR : ℚ := 11/2
def RESPIRATION_TO_PULSE_FACTOR_NOISE : ℚ := 1/5
def PULSE_RATE_NOISE : ℚ := 0
def PULSE_RATE_NOISE_STD : ℚ := 4
def PULSE_RATE_NOISE_INFECTED : ℚ := 10
def PULSE_RATE_NOISE_STD_INFECTED : ℚ := 5

/-! ### The pseudo-random generator and numpy primitives -/

/-- State of the shared pseudo-random generator: an underlying stream of
standard-normal draws (determined by the seed) and the current cursor. -/
structure RandState where
  stream : ℕ → ℚ
  pos : ℕ

/-- A single draw from `Normal(loc, scale)` realised from a standard-normal
stream entry `z`. -/
def gauss (loc scale z : ℚ) : ℚ := loc + scale * z

/-- Model of `np.random.normal(loc, scale, n)`: consume the next `n` stream entries,
returning the transformed draws and the advanced generator state. -/
def npRandomNormal (loc scale : ℚ) (n : ℕ) (s : RandState) :
    List ℚ × RandState :=
  ((List.range n).map (fun i => gauss loc scale (s.stream (s.pos + i))),
   ⟨s.stream, s.pos + n⟩)

/-- Model of `np.zeros(n)`. -/
def npZeros (n : ℕ) : List ℚ := List.replicate n 0

/-- Model of `np.ones(n)`. -/
def npOnes (n : ℕ) : List ℚ := List.replicate n 1

/-- Elementwise addition of two numpy arrays. -/
def vadd (a b : List ℚ) : List ℚ := List.zipWith (· + ·) a b

/-- Elementwise multiplication of two numpy arrays. -/
def vmul (a b : List ℚ) : List ℚ := List.zipWith (· * ·) a b

/-- Model of `np.stack(cols, axis=1)` for columns all of length `n`: row `i` collects
the `i`-th entry of every column. -/
def npStack (cols : List (List ℚ)) (n : ℕ) : List (List ℚ) :=
  (List.range n).map (fun i => cols.map (fun c => c.getD i 0))

/-! ### DataFrames -/

/-- A pandas DataFrame: named columns over a list of rows. -/
structure DataFrame where
  columns : List String
  rows : List (List ℚ)

/-- Column schema of a patient cohort table, in the fixed order used by the
notebook. -/
def patientColumns : List String :=
  ["systolic_pressure", "diastolic_pressure", "daily_avg_body_temperature",
   "body_temperature", "daily_avg_respiration_rate", "respiration_rate",
   "daily_avg_pulse_rate", "pulse_rate", "infection"]

/-- Value of column `name` in row `r` of a table with the patient schema. -/
def colOf (r : List ℚ) (name : String) : ℚ :=
  r.getD (patientColumns.indexOf name) 0

/-- Model of `df[name].values`. -/
def DataFrame.getCol (df : DataFrame) (name : String) : List ℚ :=
  df.rows.map (fun r => r.getD (df.columns.indexOf name) 0)

/-- Model of `df.drop(name, axis=1)`. -/
def DataFrame.dropCol (df : DataFrame) (name : String) : DataFrame :=
  ⟨df.columns.erase name,
   df.rows.map (fun r => r.eraseIdx (df.columns.indexOf name))⟩

/-- Model of `pd.concat((a, b)).reset_index(drop=True)`: rows of `a` then rows of
`b`, order preserved. -/
def DataFrame.concatRows (a b : DataFrame) : DataFrame :=
  ⟨a.columns, a.rows ++ b.rows⟩

/-! ### The two generation routines (cell 5) -/

/-- Model of `generate_healthy(n_patients)`: healthy cohort, translated line by line
from the notebook; every `np.random.normal` call threads the generator
state. -/
def generate_healthy (n_patients : ℕ) (s : RandState) :
    DataFrame × RandState :=
  let (systolic_pressure, s) :=
    npRandomNormal SYSTOLIC_PRESSURE SYSTOLIC_PRESSURE_STD n_patients s
  let (dia_factor, s) :=
    npRandomNormal SYSTOLIC_TO_DIASTOLIC_FACTOR
      SYSTOLIC_TO_DIASTOLIC_FACTOR_STD n_patients s
  let diastolic_pressure := vmul systolic_pressure dia_factor
  let (daily_avg_body_temperature, s) :=
    npRandomNormal MEAN_BODY_TEMP MEAN_BODY_TEMP_STD n_patients s
  let (temp_noise, s) :=
    npRandomNormal BODY_TEMP_NOISE BODY_TEMP_NOISE_STD n_patients s
  let body_temperature := vadd daily_avg_body_temperature temp_noise
  let (daily_avg_respiration_rate, s) :=
    npRandomNormal MEAN_RESPIRATION_RATE MEAN_RESPIRATION_RATE_STD
      n_patients s
  let (resp_noise, s) :=
    npRandomNormal RESPIRATION_RATE_NOISE RESPIRATION_RATE_NOISE_STD
      n_patients s
  let respiration_rate := vadd daily_avg_respiration_rate resp_noise
  let (pulse_factor, s) :=
    npRandomNormal RESPIRATION_TO_PULSE_FACTOR
      RESPIRATION_TO_PULSE_FACTOR_NOISE n_patients s
  let daily_avg_pulse_rate := vmul daily_avg_respiration_rate pulse_factor
  let (pulse_noise, s) :=
    npRandomNormal PULSE_RATE_NOISE PULSE_RATE_NOISE_STD n_patients s
  let pulse_rate := vadd daily_avg_pulse_rate pulse_noise
  let infection := npZeros n_patients
  (⟨patientColumns,
    npStack
      [systolic_pressure, diastolic_pressure, daily_avg_body_temperature,
       body_temperature, daily_avg_respiration_rate, respiration_rate,
       daily_avg_pulse_rate, pulse_rate, infection] n_patients⟩,
   s)

/-- Model of `generate_infected(n_patients)`: infected cohort, translated line by
line from the notebook. -/
def generate_infected (n_patients : ℕ) (s : RandState) :
    DataFrame × RandState :=
  let (systolic_pressure, s) :=
    npRandomNormal SYSTOLIC_PRESSURE SYSTOLIC_PRESSURE_STD n_patients s
  let (dia_factor, s) :=
    npRandomNormal SYSTOLIC_TO_DIASTOLIC_FACTOR
      SYSTOLIC_TO_DIASTOLIC_FACTOR_STD n_patients s
  let diastolic_pressure := vmul systolic_pressure dia_factor
  let (daily_avg_body_temperature, s) :=
    npRandomNormal MEAN_BODY_TEMP MEAN_BODY_TEMP_STD n_patients s
  let (temp_noise, s) :=
    npRandomNormal BODY_TEMP_NOISE BODY_TEMP_NOISE_STD n_patients s
  let body_temperature := vadd daily_avg_body_temperature temp_noise
  let (daily_avg_respiration_rate, s) :=
    npRandomNormal MEAN_RESPIRATION_RATE MEAN_RESPIRATION_RATE_STD
      n_patients s
  let (resp_noise, s) :=
    npRandomNormal RESPIRATION_RATE_NOISE_INFECTED
      RESPIRATION_RATE_NOISE_STD_INFECTED n_patients s
  let respiration_rate := vadd daily_avg_respiration_rate resp_noise
  let (pulse_factor, s) :=
    npRandomNormal RESPIRATION_TO_PULSE_FACTOR
      RESPIRATION_TO_PULSE_FACTOR_NOISE n_patients s
  let daily_avg_pulse_rate := vmul daily_avg_respiration_rate pulse_factor
  let (pulse_noise, s) :=
    npRandomNormal PULSE_RATE_NOISE_INFECTED PULSE_RATE_NOISE_STD_INFECTED
      n_patients s
  let pulse_rate := vadd daily_avg_pulse_rate pulse_noise
  let infection := npOnes n_patients
  (⟨patientColumns,
    npStack
      [systolic_pressure, diastolic_pressure, daily_avg_body_temperature,
       body_temperature, daily_avg_respiration_rate, respiration_rate,
       daily_avg_pulse_rate, pulse_rate, infection] n_patients⟩,
   s)

/-- Operation `generate_cohort(n_records, is_infected)` of the specification: the
label flag selects which of the two notebook routines runs. -/
def generate_cohort (n_records : ℕ) (is_infected : Bool) (s : RandState) :
    DataFrame × RandState :=
  if is_infected then generate_infected n_records s
  else generate_healthy n_records s

/-! ### The fallible interface (Python ints may be negative)

In Python `n_patients` is a plain int; `np.random.normal(loc, scale, n)`
raises `ValueError: negative dimensions are not allowed` on a negative
size, which the specification's error taxonomy calls `InvalidArgument`.
The raise happens inside the first sampling call, before any output
exists. -/

/-- The specification's error taxonomy (§7). -/
inductive GenError where
  | invalidArgument
  deriving DecidableEq, Repr

/-- Model of `np.random.normal(loc, scale, n)` on an arbitrary integer size:
raises on a negative size, otherwise samples as `npRandomNormal`. -/
def npRandomNormalChecked (loc scale : ℚ) (n : ℤ) (s : RandState) :
    Except GenError (List ℚ × RandState) :=
  if n < 0 then .error .invalidArgument
  else .ok (npRandomNormal loc scale n.toNat s)

/-- Model of `np.zeros(n)` on an arbitrary integer size. -/
def npZerosChecked (n : ℤ) : Except GenError (List ℚ) :=
  if n < 0 then .error .invalidArgument else .ok (npZeros n.toNat)

/-- Model of `np.ones(n)` on an arbitrary integer size. -/
def npOnesChecked (n : ℤ) : Except GenError (List ℚ) :=
  if n < 0 then .error .invalidArgument else .ok (npOnes n.toNat)

/-- Variant of `generate_healthy` called with an arbitrary integer count: each numpy
allocation raises on a negative size, exactly as in the source. -/
def generate_healthy_checked (n_patients : ℤ) (s : RandState) :
    Except GenError (DataFrame × RandState) := do
  let (systolic_pressure, s) ←
    npRandomNormalChecked SYSTOLIC_PRESSURE SYSTOLIC_PRESSURE_STD
      n_patients s
  let (dia_factor, s) ←
    npRandomNormalChecked SYSTOLIC_TO_DIASTOLIC_FACTOR
      SYSTOLIC_TO_DIASTOLIC_FACTOR_STD n_patients s
  let diastolic_pressure := vmul systolic_pressure dia_factor
  let (daily_avg_body_temperature, s) ←
    npRandomNormalChecked MEAN_BODY_TEMP MEAN_BODY_TEMP_STD n_patients s
  let (temp_noise, s) ←
    npRandomNormalChecked BODY_TEMP_NOISE BODY_TEMP_NOISE_STD n_patients s
  let body_temperature := vadd daily_avg_body_temperature temp_noise
  let (daily_avg_respiration_rate, s) ←
    npRandomNormalChecked MEAN_RESPIRATION_RATE MEAN_RESPIRATION_RATE_STD
      n_patients s
  let (resp_noise, s) ←
    npRandomNormalChecked RESPIRATION_RATE_NOISE RESPIRATION_RATE_NOISE_STD
      n_patients s
  let respiration_rate := vadd daily_avg_respiration_rate resp_noise
  let (pulse_factor, s) ←
    npRandomNormalChecked RESPIRATION_TO_PULSE_FACTOR
      RESPIRATION_TO_PULSE_FACTOR_NOISE n_patients s
  let daily_avg_pulse_rate := vmul daily_avg_respiration_rate pulse_factor
  let (pulse_noise, s) ←
    npRandomNormalChecked PULSE_RATE_NOISE PULSE_RATE_NOISE_STD n_patients s
  let pulse_rate := vadd daily_avg_pulse_rate pulse_noise
  let infection ← npZerosChecked n_patients
  return (⟨patientColumns,
    npStack
      [systolic_pressure, diastolic_pressure, daily_avg_body_temperature,
       body_temperature, daily_avg_respiration_rate, respiration_rate,
       daily_avg_pulse_rate, pulse_rate, infection] n_patients.toNat⟩,
   s)

/-- Variant of `generate_infected` called with an arbitrary integer count. -/
def generate_infected_checked (n_patients : ℤ) (s : RandState) :
    Except GenError (DataFrame × RandState) := do
  let (systolic_pressure, s) ←
    npRandomNormalChecked SYSTOLIC_PRESSURE SYSTOLIC_PRESSURE_STD
      n_patients s
  let (dia_factor, s) ←
    npRandomNormalChecked SYSTOLIC_TO_DIASTOLIC_FACTOR
      SYSTOLIC_TO_DIASTOLIC_FACTOR_STD n_patients s
  let diastolic_pressure := vmul systolic_pressure dia_factor
  let (daily_avg_body_temperature, s) ←
    npRandomNormalChecked MEAN_BODY_TEMP MEAN_BODY_TEMP_STD n_patients s
  let (temp_noise, s) ←
    npRandomNormalChecked BODY_TEMP_NOISE BODY_TEMP_NOISE_STD n_patients s
  let body_temperature := vadd daily_avg_body_temperature temp_noise
  let (daily_avg_respiration_rate, s) ←
    npRandomNormalChecked MEAN_RESPIRATION_RATE MEAN_RESPIRATION_RATE_STD
      n_patients s
  let (resp_noise, s) ←
    npRandomNormalChecked RESPIRATION_RATE_NOISE_INFECTED
      RESPIRATION_RATE_NOISE_STD_INFECTED n_patients s
  let respiration_rate := vadd daily_avg_respiration_rate resp_noise
  let (pulse_factor, s) ←
    npRandomNormalChecked RESPIRATION_TO_PULSE_FACTOR
      RESPIRATION_TO_PULSE_FACTOR_NOISE n_patients s
  let daily_avg_pulse_rate := vmul daily_avg_respiration_rate pulse_factor
  let (pulse_noise, s) ←
    npRandomNormalChecked PULSE_RATE_NOISE_INFECTED
      PULSE_RATE_NOISE_STD_INFECTED n_patients s
  let pulse_rate := vadd daily_avg_pulse_rate pulse_noise
  let infection ← npOnesChecked n_patients
  return (⟨patientColumns,
    npStack
      [systolic_pressure, diastolic_pressure, daily_avg_body_temperature,
       body_temperature, daily_avg_respiration_rate, respiration_rate,
       daily_avg_pulse_rate, pulse_rate, infection] n_patients.toNat⟩,
   s)

/-- Variant of `generate_cohort` on an arbitrary integer count. -/
def generate_cohort_checked (n_records : ℤ) (is_infected : Bool)
    (s : RandState) : Except GenError (DataFrame × RandState) :=
  if is_infected then generate_infected_checked n_records s
  else generate_healthy_checked n_records s

/-! ### Dataset assembly (cell 7) -/

/-- Model of `build_dataset(n_healthy, n_infected)`: generate the healthy block,
then the infected block, concatenate preserving order, split off the
`infection` column as labels and return the remaining columns as
features. -/
def build_dataset (n_healthy n_infected : ℕ) (s : RandState) :
    (DataFrame × List ℚ) × RandState :=
  let (healthy, s) := generate_healthy n_healthy s
  let (infected, s) := generate_infected n_infected s
  let data := healthy.concatRows infected
  ((data.dropCol "infection", data.getCol "infection"), s)

/-! ### Train/test split

Modelled from the spec: the notebook delegates the split to
`sklearn.model_selection.train_test_split`, an external library whose
code is not part of this repository; §4.1 specifies it as an
"index-based partition using a seeded shuffle" with test size
`round(n * test_fraction)` and remainder, deterministic for a fixed
seed.  We realise the seeded shuffle with a linear-congruential draw
sequence. -/

/-- One step of a linear congruential generator (Numerical Recipes
constants), used to realise the seeded shuffle. -/
def lcgNext (x : ℕ) : ℕ := (1664525 * x + 1013904223) % 4294967296

/-- Draw-without-replacement shuffle: repeatedly pick a pseudo-random
position of the remaining list and move that element to the front.
`fuel` bounds the recursion; callers pass the list length. -/
def shuffleAux : ℕ → List ℕ → ℕ → List ℕ
  | 0, _, _ => []
  | _ + 1, [], _ => []
  | fuel + 1, a :: l, x =>
    let j := lcgNext x % (a :: l).length
    (a :: l).getD j 0 :: shuffleAux fuel ((a :: l).eraseIdx j) (lcgNext x)

/-- Seeded shuffle of the index list `[0, …, n-1]`. -/
def shuffleIndices (n seed : ℕ) : List ℕ :=
  shuffleAux n (List.range n) seed

/-- Rounding used for the test-set size: `round(n * test_fraction)`. -/
def testCount (n : ℕ) (test_fraction : ℚ) : ℕ :=
  (round ((n : ℚ) * test_fraction)).toNat

/-- Operation `split_train_test(features, labels, test_fraction, seed)`: shuffle the
row indices with the seed, take the first `round(n * test_fraction)`
shuffled indices as the test set and the rest as the training set, and
select feature rows and labels by the same indices. -/
def split_train_test (features : DataFrame) (labels : List ℚ)
    (test_fraction : ℚ) (seed : ℕ) :
    DataFrame × DataFrame × List ℚ × List ℚ :=
  let n := features.rows.length
  let idx := shuffleIndices n seed
  let k := testCount n test_fraction
  let testIdx := idx.take k
  let trainIdx := idx.drop k
  (⟨features.columns, trainIdx.map (fun i => features.rows.getD i [])⟩,
   ⟨features.columns, testIdx.map (fun i => features.rows.getD i [])⟩,
   trainIdx.map (fun i => labels.getD i 0),
   testIdx.map (fun i => labels.getD i 0))

/-! ### Closed forms of the generated rows -/

/-- Row `i` of a healthy cohort of size `n` generated from stream `st` at
cursor `p`, written out draw by draw (call `k` of the eight vectorized
sampling calls reads stream positions `p + k*n … p + k*n + n - 1`). -/
def healthyRow (st : ℕ → ℚ) (p n i : ℕ) : List ℚ :=
  let sys := gauss SYSTOLIC_PRESSURE SYSTOLIC_PRESSURE_STD (st (p + i))
  let dia := sys * gauss SYSTOLIC_TO_DIASTOLIC_FACTOR
    SYSTOLIC_TO_DIASTOLIC_FACTOR_STD (st (p + n + i))
  let davgT := gauss MEAN_BODY_TEMP MEAN_BODY_TEMP_STD (st (p + 2*n + i))
  let temp := davgT + gauss BODY_TEMP_NOISE BODY_TEMP_NOISE_STD
    (st (p + 3*n + i))
  let davgR := gauss MEAN_RESPIRATION_RATE MEAN_RESPIRATION_RATE_STD
    (st (p + 4*n + i))
  let resp := davgR + gauss RESPIRATION_RATE_NOISE
    RESPIRATION_RATE_NOISE_STD (st (p + 5*n + i))
  let davgP := davgR * gauss RESPIRATION_TO_PULSE_FACTOR
    RESPIRATION_TO_PULSE_FACTOR_NOISE (st (p + 6*n + i))
  let pulse := davgP + gauss PULSE_RATE_NOISE PULSE_RATE_NOISE_STD
    (st (p + 7*n + i))
  [sys, dia, davgT, temp, davgR, resp, davgP, pulse, 0]

/-- Row `i` of an infected cohort of size `n`: identical to `healthyRow`
except for the respiration-noise parameters, the pulse-noise parameters
and the label. -/
def infectedRow (st : ℕ → ℚ) (p n i : ℕ) : List ℚ :=
  let sys := gauss SYSTOLIC_PRESSURE SYSTOLIC_PRESSURE_STD (st (p + i))
  let dia := sys * gauss SYSTOLIC_TO_DIASTOLIC_FACTOR
    SYSTOLIC_TO_DIASTOLIC_FACTOR_STD (st (p + n + i))
  let davgT := gauss MEAN_BODY_TEMP MEAN_BODY_TEMP_STD (st (p + 2*n + i))
  let temp := davgT + gauss BODY_TEMP_NOISE BODY_TEMP_NOISE_STD
    (st (p + 3*n + i))
  let davgR := gauss MEAN_RESPIRATION_RATE MEAN_RESPIRATION_RATE_STD
    (st (p + 4*n + i))
  let resp := davgR + gauss RESPIRATION_RATE_NOISE_INFECTED
    RESPIRATION_RATE_NOISE_STD_INFECTED (st (p + 5*n + i))
  let davgP := davgR * gauss RESPIRATION_TO_PULSE_FACTOR
    RESPIRATION_TO_PULSE_FACTOR_NOISE (st (p + 6*n + i))
  let pulse := davgP + gauss PULSE_RATE_NOISE_INFECTED
    PULSE_RATE_NOISE_STD_INFECTED (st (p + 7*n + i))
  [sys, dia, davgT, temp, davgR, resp, davgP, pulse, 1]

theorem map_range_getD {α : Type} (d : α) (f : ℕ → α) {n i : ℕ}
    (h : i < n) : ((List.range n).map f).getD i d = f i := by
  simp [List.getD_eq_getElem?_getD, List.getElem?_range h]

theorem zipWith_map_range (f : ℚ → ℚ → ℚ) (g h : ℕ → ℚ) (n : ℕ) :
    List.zipWith f ((List.range n).map g) ((List.range n).map h) =
      (List.range n).map (fun i => f (g i) (h i)) := by
  rw [List.zipWith_map, List.zipWith_same]

/-- Closed form of `generate_healthy`: the rows are `healthyRow` and the
generator advances by the `8 * n` consumed draws. -/
theorem generate_healthy_eq (st : ℕ → ℚ) (p n : ℕ) :
    generate_healthy n ⟨st, p⟩ =
      (⟨patientColumns, (List.range n).map (healthyRow st p n)⟩,
       ⟨st, p + 8*n⟩) := by
  simp only [generate_healthy, npRandomNormal, npZeros, vadd, vmul,
    zipWith_map_range, npStack]
  refine Prod.ext ?_ ?_
  · refine congrArg (DataFrame.mk patientColumns) ?_
    refine List.map_congr_left (fun i hi => ?_)
    have h : i < n := List.mem_range.mp hi
    simp only [List.map_cons, List.map_nil, List.getD_eq_getElem?_getD,
      List.getElem?_map, List.getElem?_range h,
      List.getElem?_replicate_of_lt h, Option.map_some', Option.getD_some,
      healthyRow]
    ring_nf
  · simp only
    refine congrArg (RandState.mk st) (by ring)

/-- Closed form of `generate_infected`. -/
theorem generate_infected_eq (st : ℕ → ℚ) (p n : ℕ) :
    generate_infected n ⟨st, p⟩ =
      (⟨patientColumns, (List.range n).map (infectedRow st p n)⟩,
       ⟨st, p + 8*n⟩) := by
  simp only [generate_infected, npRandomNormal, npOnes, vadd, vmul,
    zipWith_map_range, npStack]
  refine Prod.ext ?_ ?_
  · refine congrArg (DataFrame.mk patientColumns) ?_
    refine List.map_congr_left (fun i hi => ?_)
    have h : i < n := List.mem_range.mp hi
    simp only [List.map_cons, List.map_nil, List.getD_eq_getElem?_getD,
      List.getElem?_map, List.getElem?_range h,
      List.getElem?_replicate_of_lt h, Option.map_some', Option.getD_some,
      infectedRow]
    ring_nf
  · simp only
    refine congrArg (RandState.mk st) (by ring)

/-! ### Schema indices and row access -/

theorem patientColumns_length : patientColumns.length = 9 := by decide

theorem indexOf_systolic : patientColumns.indexOf "systolic_pressure" = 0 := by
  decide

theorem indexOf_diastolic :
    patientColumns.indexOf "diastolic_pressure" = 1 := by decide

theorem indexOf_davg_temp :
    patientColumns.indexOf "daily_avg_body_temperature" = 2 := by decide

theorem indexOf_temp : patientColumns.indexOf "body_temperature" = 3 := by
  decide

theorem indexOf_davg_resp :
    patientColumns.indexOf "daily_avg_respiration_rate" = 4 := by decide

theorem indexOf_resp : patientColumns.indexOf "respiration_rate" = 5 := by
  decide

theorem indexOf_davg_pulse :
    patientColumns.indexOf "daily_avg_pulse_rate" = 6 := by decide

theorem indexOf_pulse : patientColumns.indexOf "pulse_rate" = 7 := by decide

theorem indexOf_infection : patientColumns.indexOf "infection" = 8 := by
  decide

theorem generate_healthy_row (st : ℕ → ℚ) (p n i : ℕ) (h : i < n) :
    ((generate_healthy n ⟨st, p⟩).1.rows).getD i [] = healthyRow st p n i := by
  rw [generate_healthy_eq]
  exact map_range_getD [] _ h

theorem generate_infected_row (st : ℕ → ℚ) (p n i : ℕ) (h : i < n) :
    ((generate_infected n ⟨st, p⟩).1.rows).getD i [] =
      infectedRow st p n i := by
  rw [generate_infected_eq]
  exact map_range_getD [] _ h

theorem generate_cohort_false (n : ℕ) (s : RandState) :
    generate_cohort n false s = generate_healthy n s := rfl

theorem generate_cohort_true (n : ℕ) (s : RandState) :
    generate_cohort n true s = generate_infected n s := rfl

theorem getCol_range_map (name : String) (f : ℕ → List ℚ) (n : ℕ) :
    DataFrame.getCol ⟨patientColumns, (List.range n).map f⟩ name =
      (List.range n).map
        (fun i => (f i).getD (patientColumns.indexOf name) 0) := by
  simp [DataFrame.getCol, List.map_map, Function.comp]

/-! ### Claim theorems -/

/-- Claim C1: in every record of `generate_cohort(n_records, is_infected)`
the respiration and pulse noise distributions are selected by the label
flag: `respiration_rate` is `daily_avg_respiration_rate` plus a
`Normal(1.5, 0.4)` draw when infected and a `Normal(0, 0.5)` draw when
healthy, and `pulse_rate` is `daily_avg_pulse_rate` plus a
`Normal(10, 5)` draw when infected and a `Normal(0, 4)` draw when
healthy. -/
theorem C1_noise_selected_by_label (b : Bool) (st : ℕ → ℚ) (p n i : ℕ)
    (h : i < n) :
    colOf (((generate_cohort n b ⟨st, p⟩).1.rows).getD i [])
        "respiration_rate" =
      colOf (((generate_cohort n b ⟨st, p⟩).1.rows).getD i [])
          "daily_avg_respiration_rate" +
        (if b then
          gauss RESPIRATION_RATE_NOISE_INFECTED
            RESPIRATION_RATE_NOISE_STD_INFECTED
         else gauss RESPIRATION_RATE_NOISE RESPIRATION_RATE_NOISE_STD)
          (st (p + 5*n + i)) ∧
    colOf (((generate_cohort n b ⟨st, p⟩).1.rows).getD i []) "pulse_rate" =
      colOf (((generate_cohort n b ⟨st, p⟩).1.rows).getD i [])
          "daily_avg_pulse_rate" +
        (if b then
          gauss PULSE_RATE_NOISE_INFECTED PULSE_RATE_NOISE_STD_INFECTED
         else gauss PULSE_RATE_NOISE PULSE_RATE_NOISE_STD)
          (st (p + 7*n + i)) := by
  cases b
  · rw [generate_cohort_false, generate_healthy_row st p n i h]
    exact ⟨rfl, rfl⟩
  · rw [generate_cohort_true, generate_infected_row st p n i h]
    exact ⟨rfl, rfl⟩

/-- Witness for C1 at a concrete cohort. -/
theorem C1_noise_selected_by_label_witness :
    (1 : ℕ) < 2 ∧
    (colOf (((generate_cohort 2 true ⟨fun k => (k : ℚ), 0⟩).1.rows).getD 1
          []) "respiration_rate" =
      colOf (((generate_cohort 2 true ⟨fun k => (k : ℚ), 0⟩).1.rows).getD 1
            []) "daily_avg_respiration_rate" +
        (if true then
          gauss RESPIRATION_RATE_NOISE_INFECTED
            RESPIRATION_RATE_NOISE_STD_INFECTED
         else gauss RESPIRATION_RATE_NOISE RESPIRATION_RATE_NOISE_STD)
          (((0 + 5*2 + 1 : ℕ) : ℚ)) ∧
     colOf (((generate_cohort 2 true ⟨fun k => (k : ℚ), 0⟩).1.rows).getD 1
          []) "pulse_rate" =
      colOf (((generate_cohort 2 true ⟨fun k => (k : ℚ), 0⟩).1.rows).getD 1
            []) "daily_avg_pulse_rate" +
        (if true then
          gauss PULSE_RATE_NOISE_INFECTED PULSE_RATE_NOISE_STD_INFECTED
         else gauss PULSE_RATE_NOISE PULSE_RATE_NOISE_STD)
          (((0 + 7*2 + 1 : ℕ) : ℚ))) :=
  ⟨by decide,
   by exact C1_noise_selected_by_label true (fun k => (k : ℚ)) 0 2 1 (by decide)⟩

/-- Claim C6: in both regimes, every record's `diastolic_pressure` is that
record's `systolic_pressure` multiplied by a per-record
`Normal(2/3, 0.01)` ratio, never an independent draw. -/
theorem C6_diastolic_coupled (b : Bool) (st : ℕ → ℚ) (p n i : ℕ)
    (h : i < n) :
    colOf (((generate_cohort n b ⟨st, p⟩).1.rows).getD i [])
        "diastolic_pressure" =
      colOf (((generate_cohort n b ⟨st, p⟩).1.rows).getD i [])
          "systolic_pressure" *
        gauss SYSTOLIC_TO_DIASTOLIC_FACTOR SYSTOLIC_TO_DIASTOLIC_FACTOR_STD
          (st (p + n + i)) := by
  cases b
  · rw [generate_cohort_false, generate_healthy_row st p n i h]; rfl
  · rw [generate_cohort_true, generate_infected_row st p n i h]; rfl

/-- Witness for C6 at a concrete cohort. -/
theorem C6_diastolic_coupled_witness :
    (1 : ℕ) < 2 ∧
    colOf (((generate_cohort 2 false ⟨fun k => (k : ℚ), 0⟩).1.rows).getD 1
        []) "diastolic_pressure" =
      colOf (((generate_cohort 2 false ⟨fun k => (k : ℚ), 0⟩).1.rows).getD 1
          []) "systolic_pressure" *
        gauss SYSTOLIC_TO_DIASTOLIC_FACTOR SYSTOLIC_TO_DIASTOLIC_FACTOR_STD
          (((0 + 2 + 1 : ℕ) : ℚ)) :=
  ⟨by decide,
   by exact C6_diastolic_coupled false (fun k => (k : ℚ)) 0 2 1 (by decide)⟩

/-- Claim C7: in both regimes, every record's `daily_avg_pulse_rate` is
that record's `daily_avg_respiration_rate` multiplied by a per-record
`Normal(5.5, 0.2)` factor, not an independent draw. -/
theorem C7_pulse_avg_coupled (b : Bool) (st : ℕ → ℚ) (p n i : ℕ)
    (h : i < n) :
    colOf (((generate_cohort n b ⟨st, p⟩).1.rows).getD i [])
        "daily_avg_pulse_rate" =
      colOf (((generate_cohort n b ⟨st, p⟩).1.rows).getD i [])
          "daily_avg_respiration_rate" *
        gauss RESPIRATION_TO_PULSE_FACTOR RESPIRATION_TO_PULSE_FACTOR_NOISE
          (st (p + 6*n + i)) := by
  cases b
  · rw [generate_cohort_false, generate_healthy_row st p n i h]; rfl
  · rw [generate_cohort_true, generate_infected_row st p n i h]; rfl

/-- Witness for C7 at a concrete cohort. -/
theorem C7_pulse_avg_coupled_witness :
    (1 : ℕ) < 2 ∧
    colOf (((generate_cohort 2 true ⟨fun k => (k : ℚ), 0⟩).1.rows).getD 1
        []) "daily_avg_pulse_rate" =
      colOf (((generate_cohort 2 true ⟨fun k => (k : ℚ), 0⟩).1.rows).getD 1
          []) "daily_avg_respiration_rate" *
        gauss RESPIRATION_TO_PULSE_FACTOR RESPIRATION_TO_PULSE_FACTOR_NOISE
          (((0 + 6*2 + 1 : ℕ) : ℚ)) :=
  ⟨by decide,
   by exact C7_pulse_avg_coupled true (fun k => (k : ℚ)) 0 2 1 (by decide)⟩

/-- Claim C9: label purity — the `infection` column produced by a single
`generate_cohort` call is constantly `1.0` when `is_infected` and
constantly `0.0` otherwise, taking no other value on any row. -/
theorem C9_label_purity (n : ℕ) (b : Bool) (st : ℕ → ℚ) (p : ℕ) :
    (generate_cohort n b ⟨st, p⟩).1.getCol "infection" =
      List.replicate n (if b then 1 else 0) := by
  cases b
  · rw [generate_cohort_false, generate_healthy_eq]
    simp only [DataFrame.getCol, List.map_map, Bool.false_eq_true, if_false]
    have h : ((fun r => List.getD r (patientColumns.indexOf "infection") 0) ∘
        healthyRow st p n) = fun _ => (0 : ℚ) := by
      funext i
      rw [Function.comp_apply, indexOf_infection]
      rfl
    rw [h, List.map_const', List.length_range]
  · rw [generate_cohort_true, generate_infected_eq]
    simp only [DataFrame.getCol, List.map_map, if_true]
    have h : ((fun r => List.getD r (patientColumns.indexOf "infection") 0) ∘
        infectedRow st p n) = fun _ => (1 : ℚ) := by
      funext i
      rw [Function.comp_apply, indexOf_infection]
      rfl
    rw [h, List.map_const', List.length_range]

/-- Claim C8: for every count and either label flag, `generate_cohort`
returns exactly `n` rows, each with all 9 numeric fields present, under
the fixed column order of the notebook. -/
theorem C8_table_shape (n : ℕ) (b : Bool) (st : ℕ → ℚ) (p : ℕ) :
    (generate_cohort n b ⟨st, p⟩).1.rows.length = n ∧
    (generate_cohort n b ⟨st, p⟩).1.rows.map List.length =
      List.replicate n 9 ∧
    (generate_cohort n b ⟨st, p⟩).1.columns =
      ["systolic_pressure", "diastolic_pressure",
       "daily_avg_body_temperature", "body_temperature",
       "daily_avg_respiration_rate", "respiration_rate",
       "daily_avg_pulse_rate", "pulse_rate", "infection"] := by
  cases b
  · rw [generate_cohort_false, generate_healthy_eq]
    refine ⟨by simp, ?_, rfl⟩
    simp only [List.map_map]
    have h : (List.length ∘ healthyRow st p n) = fun _ => 9 := by
      funext i
      rfl
    rw [h, List.map_const', List.length_range]
  · rw [generate_cohort_true, generate_infected_eq]
    refine ⟨by simp, ?_, rfl⟩
    simp only [List.map_map]
    have h : (List.length ∘ infectedRow st p n) = fun _ => 9 := by
      funext i
      rfl
    rw [h, List.map_const', List.length_range]

/-- Claim C10: started from the same generator state, the two generation
routines consume their draws in the same order (identical exit states),
produce identical values in the six regime-independent columns, build
their respiration and pulse readings from the same daily averages and
the same stream windows with only the noise parameters changed, and
differ otherwise only in the constant label column. -/
theorem C10_regime_equivalence (n : ℕ) (st : ℕ → ℚ) (p : ℕ) :
    (generate_healthy n ⟨st, p⟩).2 = (generate_infected n ⟨st, p⟩).2 ∧
    (generate_healthy n ⟨st, p⟩).1.columns =
      (generate_infected n ⟨st, p⟩).1.columns ∧
    (generate_healthy n ⟨st, p⟩).1.getCol "systolic_pressure" =
      (generate_infected n ⟨st, p⟩).1.getCol "systolic_pressure" ∧
    (generate_healthy n ⟨st, p⟩).1.getCol "diastolic_pressure" =
      (generate_infected n ⟨st, p⟩).1.getCol "diastolic_pressure" ∧
    (generate_healthy n ⟨st, p⟩).1.getCol "daily_avg_body_temperature" =
      (generate_infected n ⟨st, p⟩).1.getCol "daily_avg_body_temperature" ∧
    (generate_healthy n ⟨st, p⟩).1.getCol "body_temperature" =
      (generate_infected n ⟨st, p⟩).1.getCol "body_temperature" ∧
    (generate_healthy n ⟨st, p⟩).1.getCol "daily_avg_respiration_rate" =
      (generate_infected n ⟨st, p⟩).1.getCol "daily_avg_respiration_rate" ∧
    (generate_healthy n ⟨st, p⟩).1.getCol "daily_avg_pulse_rate" =
      (generate_infected n ⟨st, p⟩).1.getCol "daily_avg_pulse_rate" ∧
    (generate_healthy n ⟨st, p⟩).1.getCol "respiration_rate" =
      vadd ((generate_healthy n ⟨st, p⟩).1.getCol
          "daily_avg_respiration_rate")
        ((npRandomNormal RESPIRATION_RATE_NOISE RESPIRATION_RATE_NOISE_STD n
          ⟨st, p + 5*n⟩).1) ∧
    (generate_infected n ⟨st, p⟩).1.getCol "respiration_rate" =
      vadd ((generate_infected n ⟨st, p⟩).1.getCol
          "daily_avg_respiration_rate")
        ((npRandomNormal RESPIRATION_RATE_NOISE_INFECTED
          RESPIRATION_RATE_NOISE_STD_INFECTED n ⟨st, p + 5*n⟩).1) ∧
    (generate_healthy n ⟨st, p⟩).1.getCol "pulse_rate" =
      vadd ((generate_healthy n ⟨st, p⟩).1.getCol "daily_avg_pulse_rate")
        ((npRandomNormal PULSE_RATE_NOISE PULSE_RATE_NOISE_STD n
          ⟨st, p + 7*n⟩).1) ∧
    (generate_infected n ⟨st, p⟩).1.getCol "pulse_rate" =
      vadd ((generate_infected n ⟨st, p⟩).1.getCol "daily_avg_pulse_rate")
        ((npRandomNormal PULSE_RATE_NOISE_INFECTED
          PULSE_RATE_NOISE_STD_INFECTED n ⟨st, p + 7*n⟩).1) ∧
    (generate_healthy n ⟨st, p⟩).1.getCol "infection" = npZeros n ∧
    (generate_infected n ⟨st, p⟩).1.getCol "infection" = npOnes n := by
  rw [generate_healthy_eq, generate_infected_eq]
  simp only [getCol_range_map, npRandomNormal, vadd, zipWith_map_range,
    npZeros, npOnes]
  refine ⟨trivial, trivial, ?_, ?_, ?_, ?_, ?_, ?_, ?_, ?_, ?_, ?_, ?_, ?_⟩
  · exact List.map_congr_left (fun i _ => rfl)
  · exact List.map_congr_left (fun i _ => rfl)
  · exact List.map_congr_left (fun i _ => rfl)
  · exact List.map_congr_left (fun i _ => rfl)
  · exact List.map_congr_left (fun i _ => rfl)
  · exact List.map_congr_left (fun i _ => rfl)
  · exact List.map_congr_left (fun i _ => rfl)
  · exact List.map_congr_left (fun i _ => rfl)
  · exact List.map_congr_left (fun i _ => rfl)
  · exact List.map_congr_left (fun i _ => rfl)
  · have h : (fun i =>
        List.getD (healthyRow st p n i) (patientColumns.indexOf "infection")
          0) = fun _ => (0 : ℚ) := by
      funext i
      rw [indexOf_infection]
      rfl
    rw [h, List.map_const', List.length_range]
  · have h : (fun i =>
        List.getD (infectedRow st p n i)
          (patientColumns.indexOf "infection") 0) = fun _ => (1 : ℚ) := by
      funext i
      rw [indexOf_infection]
      rfl
    rw [h, List.map_const', List.length_range]

/-- Claim C2: `generate_cohort(0, is_infected)` succeeds with an empty
table that still carries the full 9-column schema, while a negative
count fails with `InvalidArgument` (raised by the first allocation, so
no partial output exists). -/
theorem C2_zero_and_negative_counts (b : Bool) (s : RandState) (n : ℤ)
    (hn : n < 0) :
    generate_cohort_checked 0 b s =
      .ok (⟨["systolic_pressure", "diastolic_pressure",
             "daily_avg_body_temperature", "body_temperature",
             "daily_avg_respiration_rate", "respiration_rate",
             "daily_avg_pulse_rate", "pulse_rate", "infection"], []⟩, s) ∧
    generate_cohort_checked n b s = .error .invalidArgument := by
  constructor
  · cases b <;> rfl
  · cases b <;>
      simp [generate_cohort_checked, generate_healthy_checked,
        generate_infected_checked, npRandomNormalChecked, hn, Bind.bind,
        Except.bind, Functor.map, Except.map]

/-- Witness for C2 at a concrete state and count. -/
theorem C2_zero_and_negative_counts_witness :
    (-1 : ℤ) < 0 ∧
    (generate_cohort_checked 0 false ⟨fun k => (k : ℚ), 0⟩ =
      .ok (⟨["systolic_pressure", "diastolic_pressure",
             "daily_avg_body_temperature", "body_temperature",
             "daily_avg_respiration_rate", "respiration_rate",
             "daily_avg_pulse_rate", "pulse_rate", "infection"], []⟩,
        ⟨fun k => (k : ℚ), 0⟩) ∧
     generate_cohort_checked (-1) false ⟨fun k => (k : ℚ), 0⟩ =
       .error .invalidArgument) :=
  ⟨by decide,
   C2_zero_and_negative_counts false ⟨fun k => (k : ℚ), 0⟩ (-1) (by decide)⟩

/-- Closed form of `build_dataset`: rows of the healthy block at cursor
`p` followed by rows of the infected block at cursor `p + 8*n_healthy`,
with the `infection` column split off. -/
theorem build_dataset_eq (st : ℕ → ℚ) (p n_healthy n_infected : ℕ) :
    build_dataset n_healthy n_infected ⟨st, p⟩ =
      ((⟨patientColumns.erase "infection",
         ((List.range n_healthy).map (healthyRow st p n_healthy) ++
          (List.range n_infected).map
            (infectedRow st (p + 8*n_healthy) n_infected)).map
           (fun r => r.eraseIdx 8)⟩,
        ((List.range n_healthy).map (healthyRow st p n_healthy) ++
         (List.range n_infected).map
           (infectedRow st (p + 8*n_healthy) n_infected)).map
          (fun r => r.getD 8 0)),
       ⟨st, p + 8*n_healthy + 8*n_infected⟩) := by
  simp only [build_dataset, generate_healthy_eq, generate_infected_eq,
    DataFrame.concatRows, DataFrame.dropCol, DataFrame.getCol,
    indexOf_infection]

/-- Claim C3: `build_dataset(900, 100)` yields a 1000-row, 8-column
feature table (the `infection` column removed), a label vector of 900
zeros followed by 100 ones, and the healthy feature block before the
infected feature block with row order preserved. -/
theorem C3_build_dataset_900_100 (st : ℕ → ℚ) (p : ℕ) :
    ((build_dataset 900 100 ⟨st, p⟩).1.1).rows.length = 1000 ∧
    ((build_dataset 900 100 ⟨st, p⟩).1.1).columns =
      ["systolic_pressure", "diastolic_pressure",
       "daily_avg_body_temperature", "body_temperature",
       "daily_avg_respiration_rate", "respiration_rate",
       "daily_avg_pulse_rate", "pulse_rate"] ∧
    ((build_dataset 900 100 ⟨st, p⟩).1.1).rows.map List.length =
      List.replicate 1000 8 ∧
    (build_dataset 900 100 ⟨st, p⟩).1.2 =
      List.replicate 900 0 ++ List.replicate 100 1 ∧
    ((build_dataset 900 100 ⟨st, p⟩).1.1).rows =
      ((generate_healthy 900 ⟨st, p⟩).1.rows.map
        (fun r => r.eraseIdx 8)) ++
      ((generate_infected 100 ⟨st, p + 8*900⟩).1.rows.map
        (fun r => r.eraseIdx 8)) := by
  rw [build_dataset_eq]
  dsimp only
  refine ⟨by simp, by decide, ?_, ?_, ?_⟩
  · simp only [List.map_append, List.map_map]
    have h1 : (List.length ∘ (fun r => List.eraseIdx r 8) ∘
        healthyRow st p 900) = fun _ => 8 := by
      funext i
      rfl
    have h2 : (List.length ∘ (fun r => List.eraseIdx r 8) ∘
        infectedRow st (p + 8*900) 100) = fun _ => 8 := by
      funext i
      rfl
    rw [h1, h2, List.map_const', List.map_const', List.length_range,
      List.length_range, ← List.replicate_add]
  · simp only [List.map_append, List.map_map]
    have h1 : ((fun r => List.getD r 8 0) ∘ healthyRow st p 900) =
        fun _ => (0 : ℚ) := by
      funext i
      rfl
    have h2 : ((fun r => List.getD r 8 0) ∘
        infectedRow st (p + 8*900) 100) = fun _ => (1 : ℚ) := by
      funext i
      rfl
    rw [h1, h2, List.map_const', List.map_const', List.length_range,
      List.length_range]
  · rw [generate_healthy_eq, generate_infected_eq]
    dsimp only
    rw [List.map_append]

/-- Congruence: `healthyRow` reads the stream only inside the window
`[p, p + 8*n)`. -/
theorem healthyRow_congr (st₁ st₂ : ℕ → ℚ) (p n i : ℕ) (hi : i < n)
    (hst : ∀ k, k < 8*n → st₁ (p + k) = st₂ (p + k)) :
    healthyRow st₁ p n i = healthyRow st₂ p n i := by
  have e0 := hst i (by omega)
  have e1 := hst (n + i) (by omega)
  have e2 := hst (2*n + i) (by omega)
  have e3 := hst (3*n + i) (by omega)
  have e4 := hst (4*n + i) (by omega)
  have e5 := hst (5*n + i) (by omega)
  have e6 := hst (6*n + i) (by omega)
  have e7 := hst (7*n + i) (by omega)
  simp only [healthyRow, Nat.add_assoc]
  rw [e0, e1, e2, e3, e4, e5, e6, e7]

/-- Congruence: `infectedRow` reads the stream only inside the window
`[p, p + 8*n)`. -/
theorem infectedRow_congr (st₁ st₂ : ℕ → ℚ) (p n i : ℕ) (hi : i < n)
    (hst : ∀ k, k < 8*n → st₁ (p + k) = st₂ (p + k)) :
    infectedRow st₁ p n i = infectedRow st₂ p n i := by
  have e0 := hst i (by omega)
  have e1 := hst (n + i) (by omega)
  have e2 := hst (2*n + i) (by omega)
  have e3 := hst (3*n + i) (by omega)
  have e4 := hst (4*n + i) (by omega)
  have e5 := hst (5*n + i) (by omega)
  have e6 := hst (6*n + i) (by omega)
  have e7 := hst (7*n + i) (by omega)
  simp only [infectedRow, Nat.add_assoc]
  rw [e0, e1, e2, e3, e4, e5, e6, e7]

/-- Claim C5: dataset construction is deterministic in the seed — the
output of `build_dataset` is a pure function of the seeded stream and
the record counts, and it depends on the stream only through the
`8 * (n_healthy + n_infected)` entries it consumes.  In particular two
runs whose seeded generators agree on that window (e.g. two runs seeded
identically) produce bit-identical feature tables and label vectors. -/
theorem C5_seed_determinism (n_healthy n_infected : ℕ)
    (st₁ st₂ : ℕ → ℚ) (p : ℕ)
    (hst : ∀ k, k < 8*(n_healthy + n_infected) →
      st₁ (p + k) = st₂ (p + k)) :
    (build_dataset n_healthy n_infected ⟨st₁, p⟩).1 =
      (build_dataset n_healthy n_infected ⟨st₂, p⟩).1 := by
  rw [build_dataset_eq, build_dataset_eq]
  have hA : (List.range n_healthy).map (healthyRow st₁ p n_healthy) =
      (List.range n_healthy).map (healthyRow st₂ p n_healthy) :=
    List.map_congr_left (fun i hi =>
      healthyRow_congr st₁ st₂ p n_healthy i (List.mem_range.mp hi)
        (fun k hk => hst k (by omega)))
  have hB : (List.range n_infected).map
        (infectedRow st₁ (p + 8*n_healthy) n_infected) =
      (List.range n_infected).map
        (infectedRow st₂ (p + 8*n_healthy) n_infected) :=
    List.map_congr_left (fun i hi =>
      infectedRow_congr st₁ st₂ (p + 8*n_healthy) n_infected i
        (List.mem_range.mp hi)
        (fun k hk => by
          have h := hst (8*n_healthy + k) (by omega)
          rwa [← Nat.add_assoc] at h))
  rw [hA, hB]

/-- Witness for C5: two streams that agree on the consumed window but
differ beyond it. -/
theorem C5_seed_determinism_witness :
    (∀ k : ℕ, k < 8*(1 + 1) →
      (fun m => (m : ℚ)) (0 + k) =
        (fun m => if m < 16 then (m : ℚ) else 99) (0 + k)) ∧
    (build_dataset 1 1 ⟨fun m => (m : ℚ), 0⟩).1 =
      (build_dataset 1 1 ⟨fun m => if m < 16 then (m : ℚ) else 99, 0⟩).1 :=
  ⟨by
    intro k hk
    have h16 : k < 16 := by omega
    simp [h16],
   C5_seed_determinism 1 1 (fun m => (m : ℚ))
     (fun m => if m < 16 then (m : ℚ) else 99) 0
     (by
       intro k hk
       have h16 : k < 16 := by omega
       simp [h16])⟩

/-! ### Correctness of the seeded shuffle -/

theorem shuffleAux_perm :
    ∀ (fuel : ℕ) (l : List ℕ) (x : ℕ), l.length ≤ fuel →
      (shuffleAux fuel l x).Perm l := by
  intro fuel
  induction fuel with
  | zero =>
    intro l x hl
    have : l = [] := List.eq_nil_of_length_eq_zero (Nat.le_zero.mp hl)
    subst this
    exact List.Perm.refl _
  | succ fuel IH =>
    intro l x hl
    cases l with
    | nil => exact List.Perm.refl _
    | cons a l =>
      simp only [shuffleAux]
      set j := lcgNext x % (a :: l).length with hj
      have hjlt : j < (a :: l).length := Nat.mod_lt _ (by simp)
      have hlen : ((a :: l).eraseIdx j).length ≤ fuel := by
        rw [List.length_eraseIdx]
        simp only [hjlt, if_pos]
        simp only [List.length_cons] at hl ⊢
        omega
      have h1 : (shuffleAux fuel ((a :: l).eraseIdx j) (lcgNext x)).Perm
          ((a :: l).eraseIdx j) := IH _ _ hlen
      have hgetD : (a :: l).getD j 0 = (a :: l).get ⟨j, hjlt⟩ := by
        rw [List.getD_eq_getElem?_getD, List.getElem?_eq_getElem hjlt,
          Option.getD_some, List.get_eq_getElem]
      rw [hgetD]
      refine List.Perm.trans (List.Perm.cons _ h1) ?_
      refine List.Perm.trans
        (List.Perm.cons _ (List.erase_get ⟨j, hjlt⟩).symm) ?_
      exact (List.perm_cons_erase (List.get_mem _ _ hjlt)).symm

theorem shuffleIndices_perm (n seed : ℕ) :
    (shuffleIndices n seed).Perm (List.range n) :=
  shuffleAux_perm n (List.range n) seed (by simp)

theorem shuffleIndices_length (n seed : ℕ) :
    (shuffleIndices n seed).length = n := by
  rw [(shuffleIndices_perm n seed).length_eq, List.length_range]

theorem zip_eq_map_range {α β : Type} (da : α) (db : β) (xs : List α) :
    ∀ (ys : List β) (n : ℕ), xs.length = n → ys.length = n →
      xs.zip ys =
        (List.range n).map (fun i => (xs.getD i da, ys.getD i db)) := by
  induction xs with
  | nil =>
    intro ys n hx hy
    rw [← hx] at hy ⊢
    rw [List.eq_nil_of_length_eq_zero hy]
    rfl
  | cons x xs IH =>
    intro ys n hx hy
    cases ys with
    | nil =>
      rw [← hx] at hy
      simp at hy
    | cons y ys =>
      cases n with
      | zero => simp at hx
      | succ n =>
        have hx' : xs.length = n := by simpa using hx
        have hy' : ys.length = n := by simpa using hy
        rw [List.zip_cons_cons, List.range_succ_eq_map, List.map_cons,
          List.map_map, IH ys n hx' hy']
        refine congrArg₂ List.cons rfl ?_
        refine List.map_congr_left (fun i hi => ?_)
        rfl

theorem testCount_le (n : ℕ) (f : ℚ) (_hf0 : 0 ≤ f) (hf1 : f ≤ 1) :
    testCount n f ≤ n := by
  have h1 : round ((n : ℚ) * f) ≤ round ((n : ℚ)) := by
    rw [round_eq, round_eq]
    refine Int.floor_le_floor ?_
    have hn : (0 : ℚ) ≤ (n : ℚ) := by positivity
    nlinarith
  rw [round_natCast] at h1
  calc testCount n f = (round ((n : ℚ) * f)).toNat := rfl
    _ ≤ (n : ℤ).toNat := Int.toNat_le_toNat h1
    _ = n := Int.toNat_natCast n

/-- Claim C4: `split_train_test` partitions the rows so that each row's
features and label travel together, every input row lands in exactly
one partition and none in both (stated as: test pairs followed by train
pairs are a permutation of the input pairs), the test partition has
`round(n * test_fraction)` rows and the train partition the remainder,
and on 1000 rows with `test_fraction = 0.2` the sizes are 200 and 800.
Determinism for a fixed seed holds by construction: the split is a pure
function of its arguments. -/
theorem C4_split_partition (features : DataFrame) (labels : List ℚ)
    (test_fraction : ℚ) (seed : ℕ)
    (hlen : labels.length = features.rows.length)
    (hf0 : 0 ≤ test_fraction) (hf1 : test_fraction ≤ 1) :
    (split_train_test features labels test_fraction seed).2.2.2.length =
      testCount features.rows.length test_fraction ∧
    (split_train_test features labels test_fraction seed).2.2.1.length =
      features.rows.length -
        testCount features.rows.length test_fraction ∧
    (split_train_test features labels test_fraction
        seed).2.1.rows.length =
      testCount features.rows.length test_fraction ∧
    (split_train_test features labels test_fraction seed).1.rows.length =
      features.rows.length -
        testCount features.rows.length test_fraction ∧
    (((split_train_test features labels test_fraction
          seed).2.1.rows.zip
        (split_train_test features labels test_fraction seed).2.2.2) ++
      ((split_train_test features labels test_fraction seed).1.rows.zip
        (split_train_test features labels test_fraction
          seed).2.2.1)).Perm
      (features.rows.zip labels) ∧
    testCount 1000 (1/5) = 200 := by
  have hkn : testCount features.rows.length test_fraction ≤
      features.rows.length := testCount_le _ _ hf0 hf1
  have hidx : (shuffleIndices features.rows.length seed).Perm
      (List.range features.rows.length) :=
    shuffleIndices_perm _ _
  have hidxlen : (shuffleIndices features.rows.length seed).length =
      features.rows.length := shuffleIndices_length _ _
  simp only [split_train_test]
  refine ⟨?_, ?_, ?_, ?_, ?_, ?_⟩
  · rw [List.length_map, List.length_take, hidxlen, Nat.min_eq_left hkn]
  · rw [List.length_map, List.length_drop, hidxlen]
  · rw [List.length_map, List.length_take, hidxlen, Nat.min_eq_left hkn]
  · rw [List.length_map, List.length_drop, hidxlen]
  · rw [List.zip_map', List.zip_map', ← List.map_append,
      List.take_append_drop]
    refine List.Perm.trans (List.Perm.map _ hidx) ?_
    rw [zip_eq_map_range [] 0 features.rows labels features.rows.length rfl
      hlen]
  · simp only [testCount]
    have h : ((1000 : ℕ) : ℚ) * (1/5) = ((200 : ℤ) : ℚ) := by norm_num
    rw [h, round_intCast]
    rfl

/-- Witness for C4 at a concrete four-row table. -/
theorem C4_split_partition_witness :
    ([10, 20, 30, 40] : List ℚ).length =
      (DataFrame.mk ["x"] [[1], [2], [3], [4]]).rows.length ∧
    (0 : ℚ) ≤ 1/2 ∧ (1/2 : ℚ) ≤ 1 ∧
    ((split_train_test (DataFrame.mk ["x"] [[1], [2], [3], [4]])
        [10, 20, 30, 40] (1/2) 0).2.2.2.length =
      testCount (DataFrame.mk ["x"] [[1], [2], [3], [4]]).rows.length
        (1/2) ∧
    (split_train_test (DataFrame.mk ["x"] [[1], [2], [3], [4]])
        [10, 20, 30, 40] (1/2) 0).2.2.1.length =
      (DataFrame.mk ["x"] [[1], [2], [3], [4]]).rows.length -
        testCount (DataFrame.mk ["x"] [[1], [2], [3], [4]]).rows.length
          (1/2) ∧
    (split_train_test (DataFrame.mk ["x"] [[1], [2], [3], [4]])
        [10, 20, 30, 40] (1/2) 0).2.1.rows.length =
      testCount (DataFrame.mk ["x"] [[1], [2], [3], [4]]).rows.length
        (1/2) ∧
    (split_train_test (DataFrame.mk ["x"] [[1], [2], [3], [4]])
        [10, 20, 30, 40] (1/2) 0).1.rows.length =
      (DataFrame.mk ["x"] [[1], [2], [3], [4]]).rows.length -
        testCount (DataFrame.mk ["x"] [[1], [2], [3], [4]]).rows.length
          (1/2) ∧
    (((split_train_test (DataFrame.mk ["x"] [[1], [2], [3], [4]])
          [10, 20, 30, 40] (1/2) 0).2.1.rows.zip
        (split_train_test (DataFrame.mk ["x"] [[1], [2], [3], [4]])
          [10, 20, 30, 40] (1/2) 0).2.2.2) ++
      ((split_train_test (DataFrame.mk ["x"] [[1], [2], [3], [4]])
          [10, 20, 30, 40] (1/2) 0).1.rows.zip
        (split_train_test (DataFrame.mk ["x"] [[1], [2], [3], [4]])
          [10, 20, 30, 40] (1/2) 0).2.2.1)).Perm
      ((DataFrame.mk ["x"] [[1], [2], [3], [4]]).rows.zip
        [10, 20, 30, 40]) ∧
    testCount 1000 (1/5) = 200) :=
  ⟨by decide, by norm_num, by norm_num,
   C4_split_partition (DataFrame.mk ["x"] [[1], [2], [3], [4]])
     [10, 20, 30, 40] (1/2) 0 (by decide) (by norm_num) (by norm_num)⟩

end Shap
